import Mathlib

/-!
# Bouncing balls: collision detection, collision resolution and wall reflection

A shallow embedding of the physics core of `bouncingBall.cpp`:
`checkCollision`, `swap`, `Ball::Ball`, `Ball::shift`, `Ball::move`, the spawn loop and
the per-frame move loop of `main`.

Numbers.  The program computes in `double` (and narrows the collision record to `float`).
The embedding is generic over a linearly ordered field `F`; the library functions
`sqrt`, `cos` and `sin` are parameters.  Every definition is therefore executable (for
instance over `ℚ`), and the theorems instantiate `F := ℝ` with `Real.sqrt`, `Real.cos`
and `Real.sin`, i.e. exact real arithmetic: rounding, overflow and NaN are not modelled.
Division is the field division, so `a / 0 = 0` where IEEE arithmetic yields NaN or an
infinity.  The only divisions of `Ball::move` are those of `checkCollision` by the centre
distance; `Ball.moveDivisorsOk` says that none of them is by zero, and every general
result below about a collision or about `Ball.move` assumes that, or distinct centres, or
that no collision happens.  The one result about coincident centres states that the
quotient is not a unit vector, which holds under either reading.

State.  The globals `gBalls` and `gCollision` are threaded explicitly as a `World`.
Rendering and event handling do not touch the simulation state and are left out.
-/

namespace BouncingBall

/-! ## Constants -/

/-- Screen dimension constant `SCREEN_WIDTH`. -/
def SCREEN_WIDTH : Int := 1200

/-- Screen dimension constant `SCREEN_HEIGHT`. -/
def SCREEN_HEIGHT : Int := 600

/-- Class constant `Ball::BALL_WIDTH`. -/
def BALL_WIDTH : Int := 20

/-- Class constant `Ball::BALL_HEIGHT`. -/
def BALL_HEIGHT : Int := 20

/-! ## Data model -/

/-- The `Circle` structure: position, radius, magnitude and direction of the velocity. -/
structure Circle (F : Type) where
  x : F
  y : F
  r : F
  m : F
  ux : F
  uy : F

/-- The `Collision` structure: centre distance `m`, radius sum `r`, normal and tangent
vectors, and the projections of both directions along them. -/
structure Collision (F : Type) where
  m : F
  r : F
  nx : F
  ny : F
  tx : F
  ty : F
  n1 : F
  n2 : F
  t1 : F
  t2 : F

/-- The simulation state of a `Ball`: its collision circle `mBall` (the texture pointer
plays no part in the physics). -/
structure Ball (F : Type) where
  mBall : Circle F

/-- The two globals the physics reads and writes: the registry `gBalls` and the shared
collision record `gCollision`. -/
structure World (F : Type) where
  gBalls : List (Ball F)
  gCollision : Collision F

variable {F : Type} [LinearOrderedField F]

/-! ## Operations -/

/-- The function `checkCollision(c1, c2)`: writes the global collision record (given here
as `g`, returned updated) and returns whether the circles overlap.  When they do not
overlap only the fields `m` and `r` are written. -/
def checkCollision (sqrt : F → F) (g : Collision F) (c1 c2 : Circle F) :
    Bool × Collision F :=
  let m := sqrt ((c2.x - c1.x) ^ 2 + (c2.y - c1.y) ^ 2)
  let r := c1.r + c2.r
  if m < r then
    let nx := (c2.x - c1.x) / m
    let ny := (c2.y - c1.y) / m
    let tx := -(c2.y - c1.y) / m
    let ty := (c2.x - c1.x) / m
    let n1 := c1.ux * nx + c1.uy * ny
    let n2 := c2.ux * nx + c2.uy * ny
    let t1 := c1.ux * tx + c1.uy * ty
    let t2 := c2.ux * tx + c2.uy * ty
    (true, { m := m, r := r, nx := nx, ny := ny, tx := tx, ty := ty,
             n1 := n1, n2 := n2, t1 := t1, t2 := t2 })
  else
    (false, { g with m := m, r := r })

/-- The function `swap(a, b)`: the pair of values after the exchange. -/
def swap (a b : F) : F × F := (b, a)

/-- The method `Ball::shift(x, y)`. -/
def Ball.shift (b : Ball F) (x y : F) : Ball F :=
  { b with mBall := { b.mBall with x := b.mBall.x + x, y := b.mBall.y + y } }

/-- The constructor `Ball::Ball(sPosX, sPosY, sVelX, sVelY)`. -/
def Ball.init (sqrt : F → F) (sPosX sPosY sVelX sVelY : F) : Ball F :=
  let m := sqrt (sVelX ^ 2 + sVelY ^ 2)
  { mBall := { x := sPosX, y := sPosY, r := ((BALL_WIDTH / 2 : Int) : F),
               m := m, ux := sVelX / m, uy := sVelY / m } }

/-- The body of the collision branch of `Ball::move` (lines 474 to 483): with the record
`g` just written by `checkCollision(self, other)`, the new `self` and `other`: both
directions are rebuilt from the projections, the magnitudes are swapped, and the two
balls are shifted apart along the normal. -/
def Ball.resolve (g : Collision F) (self other : Ball F) : Ball F × Ball F :=
  let self1 : Ball F :=
    { self with mBall := { self.mBall with ux := g.tx * g.t1 + g.nx * g.n2,
                                           uy := g.ty * g.t1 + g.ny * g.n2 } }
  let other1 : Ball F :=
    { other with mBall := { other.mBall with ux := g.tx * g.t2 + g.nx * g.n1,
                                             uy := g.ty * g.t2 + g.ny * g.n1 } }
  let ms := swap self1.mBall.m other1.mBall.m
  let self2 : Ball F := { self1 with mBall := { self1.mBall with m := ms.1 } }
  let other2 : Ball F := { other1 with mBall := { other1.mBall with m := ms.2 } }
  (self2.shift (-(g.r - g.m) * g.nx / 2) (-(g.r - g.m) * g.ny / 2),
   other2.shift ((g.r - g.m) * g.nx / 2) ((g.r - g.m) * g.ny / 2))

/-- One iteration `i` of the collision loop of `Ball::move(index)` (lines 472 to 485).
The test `i != index` short-circuits, so `checkCollision` is not called on the ball
itself. -/
def Ball.collide (sqrt : F → F) (index i : Nat) (w : World F) : World F :=
  match w.gBalls.get? index, w.gBalls.get? i with
  | some self, some other =>
    if i ≠ index then
      let res := checkCollision sqrt w.gCollision self.mBall other.mBall
      if res.1 then
        let pr := Ball.resolve res.2 self other
        { gBalls := (w.gBalls.set index pr.1).set i pr.2, gCollision := res.2 }
      else
        { w with gCollision := res.2 }
    else w
  | _, _ => w

/-- The horizontal wall test of `Ball::move` (lines 488 to 494). -/
def Ball.bounceX (b : Ball F) : Ball F :=
  if b.mBall.x < 0 then
    { b with mBall := { b.mBall with x := 0, ux := b.mBall.ux * -1 } }
  else if b.mBall.x + (BALL_WIDTH : F) > (SCREEN_WIDTH : F) then
    { b with mBall := { b.mBall with x := ((SCREEN_WIDTH - BALL_WIDTH : Int) : F),
                                     ux := b.mBall.ux * -1 } }
  else b

/-- The vertical wall test of `Ball::move` (lines 497 to 503). -/
def Ball.bounceY (b : Ball F) : Ball F :=
  if b.mBall.y < 0 then
    { b with mBall := { b.mBall with y := 0, uy := b.mBall.uy * -1 } }
  else if b.mBall.y + (BALL_HEIGHT : F) > (SCREEN_HEIGHT : F) then
    { b with mBall := { b.mBall with y := ((SCREEN_HEIGHT - BALL_HEIGHT : Int) : F),
                                     uy := b.mBall.uy * -1 } }
  else b

/-- The tail of `Ball::move` (lines 487 to 506): both wall tests, then the translation
by `direction * magnitude`. -/
def Ball.wallsAndStep (b : Ball F) : Ball F :=
  let b2 := Ball.bounceY (Ball.bounceX b)
  b2.shift (b2.mBall.ux * b2.mBall.m) (b2.mBall.uy * b2.mBall.m)

/-- The method `Ball::move(index)`, called on `gBalls[index]`: the collision loop over
the whole registry, then the wall tests and the translation of the ball itself. -/
def Ball.move (sqrt : F → F) (index : Nat) (w : World F) : World F :=
  let w1 := (List.range w.gBalls.length).foldl (fun acc i => Ball.collide sqrt index i acc) w
  match w1.gBalls.get? index with
  | some self => { w1 with gBalls := w1.gBalls.set index (Ball.wallsAndStep self) }
  | none => w1

/-- The move loop of one frame in `main` (lines 226 to 229): `gBalls[i].move(i)` for every
index in order. -/
def advance (sqrt : F → F) (w : World F) : World F :=
  (List.range w.gBalls.length).foldl (fun acc i => Ball.move sqrt i acc) w

/-- Whether iteration `i` of the collision loop of `Ball::move(index)` divides by a
non-zero number only: when `checkCollision` reports an overlap, the divisor
`gCollision.m` of lines 599 to 604 is not zero. -/
def Ball.collideDivisorOk (sqrt : F → F) (index i : Nat) (w : World F) : Bool :=
  match w.gBalls.get? index, w.gBalls.get? i with
  | some self, some other =>
    if i ≠ index then
      let res := checkCollision sqrt w.gCollision self.mBall other.mBall
      if res.1 then decide (res.2.m ≠ 0) else true
    else true
  | _, _ => true

/-- Whether the collision loop of `Ball::move(index)`, run over the indices `l` from the
state `w`, divides by a non-zero number only; each iteration is tested on the state the
earlier iterations have left. -/
def Ball.loopDivisorsOk (sqrt : F → F) (index : Nat) : List Nat → World F → Bool
  | [], _ => true
  | i :: l, w =>
    Ball.collideDivisorOk sqrt index i w &&
      Ball.loopDivisorsOk sqrt index l (Ball.collide sqrt index i w)

/-- Whether `Ball::move(index)` started in `w` divides by a non-zero number only, that is,
never resolves a collision between two balls at the same position. -/
def Ball.moveDivisorsOk (sqrt : F → F) (index : Nat) (w : World F) : Bool :=
  Ball.loopDivisorsOk sqrt index (List.range w.gBalls.length) w

/-- One iteration of the spawn loop of `main` (lines 203 to 209) for index `i`; the four
values returned by the four calls of `rand()` are `r1`, `r2`, `r3`, `r4`. -/
def spawn (sqrt cos sin : F → F) (i : Nat) (r1 r2 r3 r4 : Nat) : Ball F :=
  Ball.init sqrt
    (((r1 % (SCREEN_WIDTH - BALL_WIDTH).toNat : Nat) : F))
    (((r2 % (SCREEN_HEIGHT - BALL_HEIGHT).toNat : Nat) : F))
    (((r3 % 5 + 1 : Nat) : F) * cos (i : F))
    (((r4 % 5 + 1 : Nat) : F) * sin (i : F))

/-- The zero-initialised global `gCollision` at program start. -/
def Collision.zero : Collision F :=
  { m := 0, r := 0, nx := 0, ny := 0, tx := 0, ty := 0, n1 := 0, n2 := 0, t1 := 0, t2 := 0 }

/-- A ball with the given centre, radius, direction and magnitude. -/
def mkBall (x y r ux uy m : F) : Ball F :=
  { mBall := { x := x, y := y, r := r, m := m, ux := ux, uy := uy } }

/-! ## Specification vocabulary -/

/-- Component along the collision normal of the effective velocity `direction * magnitude`
of a ball. -/
def normalVel (g : Collision F) (b : Ball F) : F :=
  (b.mBall.ux * b.mBall.m) * g.nx + (b.mBall.uy * b.mBall.m) * g.ny

/-- Component along the collision tangent of the effective velocity
`direction * magnitude` of a ball. -/
def tangentVel (g : Collision F) (b : Ball F) : F :=
  (b.mBall.ux * b.mBall.m) * g.tx + (b.mBall.uy * b.mBall.m) * g.ty

/-- Component along the collision tangent of the direction `(ux, uy)` of a ball. -/
def tangentDir (g : Collision F) (b : Ball F) : F :=
  b.mBall.ux * g.tx + b.mBall.uy * g.ty

/-- Squared length of the direction `(ux, uy)` of a ball. -/
def dirNormSq (b : Ball F) : F := b.mBall.ux ^ 2 + b.mBall.uy ^ 2

/-- Distance between the positions of two balls, as `checkCollision` measures it. -/
def centreDist (sqrt : F → F) (a b : Ball F) : F :=
  sqrt ((b.mBall.x - a.mBall.x) ^ 2 + (b.mBall.y - a.mBall.y) ^ 2)

/-! ## Concrete registries -/

/-- A single ball two units from the right wall, moving right with magnitude 5 (the
state `spawn` produces for index 0 with draws 1178, 100, 4, 0). -/
def overshootWorld : World F :=
  { gBalls := [mkBall 1178 100 10 1 0 5], gCollision := Collision.zero }

/-- A single ball exactly on the left wall, moving left with magnitude 3. -/
def leftEdgeWorld : World F :=
  { gBalls := [mkBall 0 100 10 (-1) 0 3], gCollision := Collision.zero }

/-- A ball two units beyond the left wall, moving left with magnitude 3, and a second
ball far away from it at `(500, 100)`. -/
def leftOutsidePairWorld : World F :=
  { gBalls := [mkBall (-2) 100 10 (-1) 0 3, mkBall 500 100 10 1 0 2],
    gCollision := Collision.zero }

/-- A ball exactly on the left wall, moving left with magnitude 3, and a second ball far
away from it at `(500, 100)`. -/
def leftEdgePairWorld : World F :=
  { gBalls := [mkBall 0 100 10 (-1) 0 3, mkBall 500 100 10 1 0 2],
    gCollision := Collision.zero }

/-- Two balls of radius 10 at the same position `(50, 50)`. -/
def coincidentWorld : World F :=
  { gBalls := [mkBall 50 50 10 1 0 3, mkBall 50 50 10 0 1 2],
    gCollision := Collision.zero }

/-- Two balls of radius 10 at `(100, 100)` and `(119, 100)` moving directly toward each
other with magnitude 3. -/
def headOnWorld : World F :=
  { gBalls := [mkBall 100 100 10 1 0 3, mkBall 119 100 10 (-1) 0 3],
    gCollision := Collision.zero }

/-- Two balls of radius 10 at `(100, 100)` and `(119, 100)`, the first moving along the
line of centres, the second across it, both with unit direction and magnitude 3. -/
def crossingWorld : World F :=
  { gBalls := [mkBall 100 100 10 1 0 3, mkBall 119 100 10 0 1 3],
    gCollision := Collision.zero }

end BouncingBall

namespace BouncingBall

/-! ## Facts about `checkCollision` over the reals -/

/-- The boolean returned by `checkCollision` is the strict comparison of the centre
distance with the radius sum. -/
theorem hit_iff (g : Collision ℝ) (c1 c2 : Circle ℝ) :
    (checkCollision Real.sqrt g c1 c2).1 = true ↔
      Real.sqrt ((c2.x - c1.x) ^ 2 + (c2.y - c1.y) ^ 2) < c1.r + c2.r := by
  unfold checkCollision
  by_cases h : Real.sqrt ((c2.x - c1.x) ^ 2 + (c2.y - c1.y) ^ 2) < c1.r + c2.r
  · simp [h]
  · simp [h]

/-- Distinct centres lie at a positive distance. -/
theorem dist_pos_of_ne (c1 c2 : Circle ℝ) (hne : c1.x ≠ c2.x ∨ c1.y ≠ c2.y) :
    0 < Real.sqrt ((c2.x - c1.x) ^ 2 + (c2.y - c1.y) ^ 2) := by
  apply Real.sqrt_pos.mpr
  rcases hne with h | h
  · have : c2.x - c1.x ≠ 0 := sub_ne_zero.mpr (Ne.symm h)
    positivity
  · have : c2.y - c1.y ≠ 0 := sub_ne_zero.mpr (Ne.symm h)
    positivity

/-- The record written by a successful `checkCollision` on circles with distinct centres:
a unit normal pointing from the first centre to the second, the tangent obtained by a
quarter turn, the four projections, and the measured lengths. -/
theorem record_of_hit (g0 : Collision ℝ) (c1 c2 : Circle ℝ)
    (hne : c1.x ≠ c2.x ∨ c1.y ≠ c2.y)
    (hhit : (checkCollision Real.sqrt g0 c1 c2).1 = true) :
    let g := (checkCollision Real.sqrt g0 c1 c2).2
    g.nx ^ 2 + g.ny ^ 2 = 1 ∧ g.tx = -g.ny ∧ g.ty = g.nx ∧
    g.n1 = c1.ux * g.nx + c1.uy * g.ny ∧ g.n2 = c2.ux * g.nx + c2.uy * g.ny ∧
    g.t1 = c1.ux * g.tx + c1.uy * g.ty ∧ g.t2 = c2.ux * g.tx + c2.uy * g.ty ∧
    c2.x - c1.x = g.m * g.nx ∧ c2.y - c1.y = g.m * g.ny ∧
    0 < g.m ∧ g.m < g.r ∧ g.r = c1.r + c2.r := by
  have hlt := (hit_iff g0 c1 c2).mp hhit
  have hpos := dist_pos_of_ne c1 c2 hne
  have hsq : Real.sqrt ((c2.x - c1.x) ^ 2 + (c2.y - c1.y) ^ 2) ^ 2
      = (c2.x - c1.x) ^ 2 + (c2.y - c1.y) ^ 2 := Real.sq_sqrt (by positivity)
  simp only [checkCollision, hlt, if_true]
  generalize Real.sqrt ((c2.x - c1.x) ^ 2 + (c2.y - c1.y) ^ 2) = d at hlt hpos hsq ⊢
  have hd : d ≠ 0 := ne_of_gt hpos
  refine ⟨?_, ?_, trivial, trivial, trivial, trivial, trivial, ?_, ?_, hpos, trivial, trivial⟩
  · field_simp
    linarith
  · ring
  · field_simp
  · field_simp

/-- A square root computed from a known non-negative root. -/
theorem sqrt_of_sq_eq {x d : ℝ} (hd : 0 ≤ d) (h : x = d ^ 2) : Real.sqrt x = d := by
  rw [h, Real.sqrt_sq hd]

/-- The fields of the two balls returned by `Ball.resolve`, written with the record `g`
and the two balls passed in. -/
theorem resolve_fields (g : Collision ℝ) (a b : Ball ℝ) :
    (Ball.resolve g a b).1.mBall.ux = g.tx * g.t1 + g.nx * g.n2 ∧
    (Ball.resolve g a b).1.mBall.uy = g.ty * g.t1 + g.ny * g.n2 ∧
    (Ball.resolve g a b).1.mBall.m = b.mBall.m ∧
    (Ball.resolve g a b).1.mBall.x = a.mBall.x + -(g.r - g.m) * g.nx / 2 ∧
    (Ball.resolve g a b).1.mBall.y = a.mBall.y + -(g.r - g.m) * g.ny / 2 ∧
    (Ball.resolve g a b).2.mBall.ux = g.tx * g.t2 + g.nx * g.n1 ∧
    (Ball.resolve g a b).2.mBall.uy = g.ty * g.t2 + g.ny * g.n1 ∧
    (Ball.resolve g a b).2.mBall.m = a.mBall.m ∧
    (Ball.resolve g a b).2.mBall.x = b.mBall.x + (g.r - g.m) * g.nx / 2 ∧
    (Ball.resolve g a b).2.mBall.y = b.mBall.y + (g.r - g.m) * g.ny / 2 := by
  simp [Ball.resolve, Ball.shift, swap]

/-! ## C2: collision detection threshold -/

/-- C2. In exact real arithmetic `checkCollision(c1, c2)` returns true if and only if the
distance between the centres is strictly below the sum of the radii; in particular it
returns false when the distance equals the radius sum. -/
theorem checkCollision_threshold (g : Collision ℝ) (c1 c2 : Circle ℝ) :
    ((checkCollision Real.sqrt g c1 c2).1 = true ↔
      Real.sqrt ((c2.x - c1.x) ^ 2 + (c2.y - c1.y) ^ 2) < c1.r + c2.r) ∧
    (Real.sqrt ((c2.x - c1.x) ^ 2 + (c2.y - c1.y) ^ 2) = c1.r + c2.r →
      (checkCollision Real.sqrt g c1 c2).1 = false) := by
  refine ⟨hit_iff g c1 c2, fun heq => ?_⟩
  cases hres : (checkCollision Real.sqrt g c1 c2).1
  · rfl
  · have := (hit_iff g c1 c2).mp hres
    rw [heq] at this
    exact absurd this (lt_irrefl _)

/-- Two circles of radius 10 whose centres are exactly 20 apart are reported as not
colliding. -/
theorem checkCollision_threshold_witness :
    Real.sqrt (((mkBall 20 0 10 1 0 3 : Ball ℝ).mBall.x - (mkBall 0 0 10 1 0 3 : Ball ℝ).mBall.x) ^ 2
        + ((mkBall 20 0 10 1 0 3 : Ball ℝ).mBall.y - (mkBall 0 0 10 1 0 3 : Ball ℝ).mBall.y) ^ 2)
      = (mkBall 0 0 10 1 0 3 : Ball ℝ).mBall.r + (mkBall 20 0 10 1 0 3 : Ball ℝ).mBall.r ∧
    (checkCollision Real.sqrt Collision.zero (mkBall 0 0 10 1 0 3 : Ball ℝ).mBall
      (mkBall 20 0 10 1 0 3 : Ball ℝ).mBall).1 = false := by
  have h : Real.sqrt (((mkBall 20 0 10 1 0 3 : Ball ℝ).mBall.x
        - (mkBall 0 0 10 1 0 3 : Ball ℝ).mBall.x) ^ 2
        + ((mkBall 20 0 10 1 0 3 : Ball ℝ).mBall.y - (mkBall 0 0 10 1 0 3 : Ball ℝ).mBall.y) ^ 2)
      = (mkBall 0 0 10 1 0 3 : Ball ℝ).mBall.r + (mkBall 20 0 10 1 0 3 : Ball ℝ).mBall.r := by
    apply sqrt_of_sq_eq <;> norm_num [mkBall]
  exact ⟨h, (checkCollision_threshold Collision.zero _ _).2 h⟩

/-! ## C6: the normal and the tangent -/

/-- C6 fails as stated. Two circles of radius 10 with the same centre are reported as
colliding, and the normal written for them is not of unit length (the distance is zero,
the division yields `0` here and NaN in IEEE arithmetic). -/
theorem normal_not_unit_coincident :
    (checkCollision Real.sqrt Collision.zero (mkBall 50 50 10 1 0 3 : Ball ℝ).mBall
      (mkBall 50 50 10 0 1 2 : Ball ℝ).mBall).1 = true ∧
    ¬ ((checkCollision Real.sqrt Collision.zero (mkBall 50 50 10 1 0 3 : Ball ℝ).mBall
        (mkBall 50 50 10 0 1 2 : Ball ℝ).mBall).2.nx ^ 2
      + (checkCollision Real.sqrt Collision.zero (mkBall 50 50 10 1 0 3 : Ball ℝ).mBall
        (mkBall 50 50 10 0 1 2 : Ball ℝ).mBall).2.ny ^ 2 = 1) := by
  simp [checkCollision, mkBall]

/-- C6, amended. For two circles with distinct centres on which `checkCollision` returns
true, the normal and the tangent it writes are orthogonal and both of unit length. -/
theorem normal_tangent_orthonormal (g0 : Collision ℝ) (c1 c2 : Circle ℝ)
    (hne : c1.x ≠ c2.x ∨ c1.y ≠ c2.y)
    (hhit : (checkCollision Real.sqrt g0 c1 c2).1 = true) :
    (checkCollision Real.sqrt g0 c1 c2).2.nx * (checkCollision Real.sqrt g0 c1 c2).2.tx
      + (checkCollision Real.sqrt g0 c1 c2).2.ny * (checkCollision Real.sqrt g0 c1 c2).2.ty = 0 ∧
    (checkCollision Real.sqrt g0 c1 c2).2.nx ^ 2 + (checkCollision Real.sqrt g0 c1 c2).2.ny ^ 2 = 1 ∧
    (checkCollision Real.sqrt g0 c1 c2).2.tx ^ 2 + (checkCollision Real.sqrt g0 c1 c2).2.ty ^ 2 = 1 := by
  obtain ⟨hu, htx, hty, -⟩ := record_of_hit g0 c1 c2 hne hhit
  refine ⟨?_, hu, ?_⟩
  · rw [htx, hty]; ring
  · rw [htx, hty]; linarith

/-- The overlapping pair at `(100, 100)` and `(119, 100)` is reported as colliding. -/
theorem hit_100_119 (g0 : Collision ℝ) (ux1 uy1 m1 ux2 uy2 m2 : ℝ) :
    (checkCollision Real.sqrt g0 (mkBall 100 100 10 ux1 uy1 m1 : Ball ℝ).mBall
      (mkBall 119 100 10 ux2 uy2 m2 : Ball ℝ).mBall).1 = true := by
  rw [hit_iff, Real.sqrt_lt' (by norm_num [mkBall])]
  norm_num [mkBall]

/-- The amended C6 applies to the overlapping pair at `(100, 100)` and `(119, 100)`. -/
theorem normal_tangent_orthonormal_witness :
    ((mkBall 100 100 10 1 0 3 : Ball ℝ).mBall.x ≠ (mkBall 119 100 10 (-1) 0 3 : Ball ℝ).mBall.x ∨
      (mkBall 100 100 10 1 0 3 : Ball ℝ).mBall.y ≠ (mkBall 119 100 10 (-1) 0 3 : Ball ℝ).mBall.y) ∧
    (checkCollision Real.sqrt Collision.zero (mkBall 100 100 10 1 0 3 : Ball ℝ).mBall
        (mkBall 119 100 10 (-1) 0 3 : Ball ℝ).mBall).1 = true ∧
    (checkCollision Real.sqrt Collision.zero (mkBall 100 100 10 1 0 3 : Ball ℝ).mBall
        (mkBall 119 100 10 (-1) 0 3 : Ball ℝ).mBall).2.nx ^ 2
      + (checkCollision Real.sqrt Collision.zero (mkBall 100 100 10 1 0 3 : Ball ℝ).mBall
        (mkBall 119 100 10 (-1) 0 3 : Ball ℝ).mBall).2.ny ^ 2 = 1 :=
  ⟨Or.inl (by norm_num [mkBall]), hit_100_119 _ _ _ _ _ _ _,
   (normal_tangent_orthonormal Collision.zero _ _ (Or.inl (by norm_num [mkBall]))
      (hit_100_119 _ _ _ _ _ _ _)).2.1⟩

/-! ## C3: momentum along the contact normal -/

/-- C3. For a colliding pair with distinct centres, the sum of the two normal components
of the effective velocities `direction * magnitude` is the same after the resolution of
`Ball::move` (direction update, magnitude swap, shifts) as before it. -/
theorem resolve_conserves_normal_momentum (g0 : Collision ℝ) (a b : Ball ℝ)
    (hne : a.mBall.x ≠ b.mBall.x ∨ a.mBall.y ≠ b.mBall.y)
    (hhit : (checkCollision Real.sqrt g0 a.mBall b.mBall).1 = true) :
    normalVel (checkCollision Real.sqrt g0 a.mBall b.mBall).2
        (Ball.resolve (checkCollision Real.sqrt g0 a.mBall b.mBall).2 a b).1
      + normalVel (checkCollision Real.sqrt g0 a.mBall b.mBall).2
        (Ball.resolve (checkCollision Real.sqrt g0 a.mBall b.mBall).2 a b).2
    = normalVel (checkCollision Real.sqrt g0 a.mBall b.mBall).2 a
      + normalVel (checkCollision Real.sqrt g0 a.mBall b.mBall).2 b := by
  obtain ⟨hu, htx, hty, hn1, hn2, ht1, ht2, -⟩ := record_of_hit g0 a.mBall b.mBall hne hhit
  obtain ⟨e1, e2, e3, -, -, e6, e7, e8, -, -⟩ :=
    resolve_fields (checkCollision Real.sqrt g0 a.mBall b.mBall).2 a b
  generalize (checkCollision Real.sqrt g0 a.mBall b.mBall).2 = g at *
  simp only [normalVel, e1, e2, e3, e6, e7, e8, hn1, hn2, htx, hty]
  linear_combination
    (b.mBall.m * (b.mBall.ux * g.nx + b.mBall.uy * g.ny)
      + a.mBall.m * (a.mBall.ux * g.nx + a.mBall.uy * g.ny)) * hu

/-- The square root of 361. -/
theorem sqrt_361 : Real.sqrt 361 = 19 := sqrt_of_sq_eq (by norm_num) (by norm_num)

/-- The record written by `checkCollision` for two balls of radius 10 at `(100, 100)` and
`(119, 100)`: distance 19, radius sum 20, normal `(1, 0)`, tangent `(0, 1)`. -/
theorem record_100_119 (g0 : Collision ℝ) (ux1 uy1 m1 ux2 uy2 m2 : ℝ) :
    checkCollision Real.sqrt g0 (mkBall 100 100 10 ux1 uy1 m1 : Ball ℝ).mBall
      (mkBall 119 100 10 ux2 uy2 m2 : Ball ℝ).mBall
    = (true, { m := 19, r := 20, nx := 1, ny := 0, tx := 0, ty := 1,
               n1 := ux1, n2 := ux2, t1 := uy1, t2 := uy2 }) := by
  norm_num [checkCollision, mkBall, sqrt_361]

/-- The conservation of C3 at a pair with different magnitudes: one ball moving along the
normal with magnitude 2, the other along the tangent with magnitude 5. -/
theorem resolve_conserves_normal_momentum_witness :
    ((mkBall 100 100 10 1 0 2 : Ball ℝ).mBall.x ≠ (mkBall 119 100 10 0 1 5 : Ball ℝ).mBall.x ∨
      (mkBall 100 100 10 1 0 2 : Ball ℝ).mBall.y ≠ (mkBall 119 100 10 0 1 5 : Ball ℝ).mBall.y) ∧
    (checkCollision Real.sqrt Collision.zero (mkBall 100 100 10 1 0 2 : Ball ℝ).mBall
      (mkBall 119 100 10 0 1 5 : Ball ℝ).mBall).1 = true ∧
    normalVel (checkCollision Real.sqrt Collision.zero (mkBall 100 100 10 1 0 2 : Ball ℝ).mBall
          (mkBall 119 100 10 0 1 5 : Ball ℝ).mBall).2
        (Ball.resolve (checkCollision Real.sqrt Collision.zero
          (mkBall 100 100 10 1 0 2 : Ball ℝ).mBall (mkBall 119 100 10 0 1 5 : Ball ℝ).mBall).2
          (mkBall 100 100 10 1 0 2) (mkBall 119 100 10 0 1 5)).1
      + normalVel (checkCollision Real.sqrt Collision.zero (mkBall 100 100 10 1 0 2 : Ball ℝ).mBall
          (mkBall 119 100 10 0 1 5 : Ball ℝ).mBall).2
        (Ball.resolve (checkCollision Real.sqrt Collision.zero
          (mkBall 100 100 10 1 0 2 : Ball ℝ).mBall (mkBall 119 100 10 0 1 5 : Ball ℝ).mBall).2
          (mkBall 100 100 10 1 0 2) (mkBall 119 100 10 0 1 5)).2
    = normalVel (checkCollision Real.sqrt Collision.zero (mkBall 100 100 10 1 0 2 : Ball ℝ).mBall
          (mkBall 119 100 10 0 1 5 : Ball ℝ).mBall).2 (mkBall 100 100 10 1 0 2)
      + normalVel (checkCollision Real.sqrt Collision.zero (mkBall 100 100 10 1 0 2 : Ball ℝ).mBall
          (mkBall 119 100 10 0 1 5 : Ball ℝ).mBall).2 (mkBall 119 100 10 0 1 5) :=
  ⟨Or.inl (by norm_num [mkBall]), hit_100_119 _ _ _ _ _ _ _,
   resolve_conserves_normal_momentum Collision.zero (mkBall 100 100 10 1 0 2)
    (mkBall 119 100 10 0 1 5) (Or.inl (by norm_num [mkBall])) (hit_100_119 _ _ _ _ _ _ _)⟩

/-! ## C4: the tangential component -/

/-- C4 fails as stated. Two overlapping balls both moving along the tangent `(0, 1)`, with
magnitudes 1 and 2: after the resolution the tangential component of the first ball's
effective velocity is 2, while it was 1 before (the magnitudes are swapped). -/
theorem tangential_velocity_not_retained :
    (checkCollision Real.sqrt Collision.zero (mkBall 100 100 10 0 1 1 : Ball ℝ).mBall
        (mkBall 119 100 10 0 1 2 : Ball ℝ).mBall).1 = true ∧
    tangentVel (checkCollision Real.sqrt Collision.zero (mkBall 100 100 10 0 1 1 : Ball ℝ).mBall
        (mkBall 119 100 10 0 1 2 : Ball ℝ).mBall).2 (mkBall 100 100 10 0 1 1) = 1 ∧
    tangentVel (checkCollision Real.sqrt Collision.zero (mkBall 100 100 10 0 1 1 : Ball ℝ).mBall
        (mkBall 119 100 10 0 1 2 : Ball ℝ).mBall).2
      (Ball.resolve (checkCollision Real.sqrt Collision.zero
        (mkBall 100 100 10 0 1 1 : Ball ℝ).mBall (mkBall 119 100 10 0 1 2 : Ball ℝ).mBall).2
        (mkBall 100 100 10 0 1 1) (mkBall 119 100 10 0 1 2)).1 = 2 := by
  rw [record_100_119]
  norm_num [tangentVel, Ball.resolve, Ball.shift, swap, mkBall]

/-- C4, amended. For a colliding pair with distinct centres, the resolution of
`Ball::move` leaves the tangential component of each ball's direction `(ux, uy)`
unchanged; the tangential component of each effective velocity becomes that direction
component times the magnitude taken over from the other ball, so it is retained by its
owner when the two magnitudes are equal. -/
theorem resolve_keeps_tangential_direction (g0 : Collision ℝ) (a b : Ball ℝ)
    (hne : a.mBall.x ≠ b.mBall.x ∨ a.mBall.y ≠ b.mBall.y)
    (hhit : (checkCollision Real.sqrt g0 a.mBall b.mBall).1 = true) :
    (tangentDir (checkCollision Real.sqrt g0 a.mBall b.mBall).2
        (Ball.resolve (checkCollision Real.sqrt g0 a.mBall b.mBall).2 a b).1
      = tangentDir (checkCollision Real.sqrt g0 a.mBall b.mBall).2 a) ∧
    (tangentDir (checkCollision Real.sqrt g0 a.mBall b.mBall).2
        (Ball.resolve (checkCollision Real.sqrt g0 a.mBall b.mBall).2 a b).2
      = tangentDir (checkCollision Real.sqrt g0 a.mBall b.mBall).2 b) ∧
    (tangentVel (checkCollision Real.sqrt g0 a.mBall b.mBall).2
        (Ball.resolve (checkCollision Real.sqrt g0 a.mBall b.mBall).2 a b).1
      = tangentDir (checkCollision Real.sqrt g0 a.mBall b.mBall).2 a * b.mBall.m) ∧
    (tangentVel (checkCollision Real.sqrt g0 a.mBall b.mBall).2
        (Ball.resolve (checkCollision Real.sqrt g0 a.mBall b.mBall).2 a b).2
      = tangentDir (checkCollision Real.sqrt g0 a.mBall b.mBall).2 b * a.mBall.m) ∧
    (a.mBall.m = b.mBall.m →
      tangentVel (checkCollision Real.sqrt g0 a.mBall b.mBall).2
          (Ball.resolve (checkCollision Real.sqrt g0 a.mBall b.mBall).2 a b).1
        = tangentVel (checkCollision Real.sqrt g0 a.mBall b.mBall).2 a ∧
      tangentVel (checkCollision Real.sqrt g0 a.mBall b.mBall).2
          (Ball.resolve (checkCollision Real.sqrt g0 a.mBall b.mBall).2 a b).2
        = tangentVel (checkCollision Real.sqrt g0 a.mBall b.mBall).2 b) := by
  obtain ⟨hu, htx, hty, hn1, hn2, ht1, ht2, -⟩ := record_of_hit g0 a.mBall b.mBall hne hhit
  obtain ⟨e1, e2, e3, -, -, e6, e7, e8, -, -⟩ :=
    resolve_fields (checkCollision Real.sqrt g0 a.mBall b.mBall).2 a b
  generalize (checkCollision Real.sqrt g0 a.mBall b.mBall).2 = g at *
  simp only [tangentDir, tangentVel, e1, e2, e3, e6, e7, e8, hn1, hn2, ht1, ht2, htx, hty]
  refine ⟨?_, ?_, ?_, ?_, fun hm => ⟨?_, ?_⟩⟩
  · linear_combination (-(a.mBall.ux * g.ny) + a.mBall.uy * g.nx) * hu
  · linear_combination (-(b.mBall.ux * g.ny) + b.mBall.uy * g.nx) * hu
  · linear_combination (-(a.mBall.ux * g.ny) + a.mBall.uy * g.nx) * b.mBall.m * hu
  · linear_combination (-(b.mBall.ux * g.ny) + b.mBall.uy * g.nx) * a.mBall.m * hu
  · rw [hm]
    linear_combination (-(a.mBall.ux * g.ny) + a.mBall.uy * g.nx) * b.mBall.m * hu
  · rw [← hm]
    linear_combination (-(b.mBall.ux * g.ny) + b.mBall.uy * g.nx) * a.mBall.m * hu

/-- The amended C4 at the pair that refutes the original one: the first ball's direction
keeps its tangential component 1, and its tangential velocity becomes `1 * 2`. -/
theorem resolve_keeps_tangential_direction_witness :
    ((mkBall 100 100 10 0 1 1 : Ball ℝ).mBall.x ≠ (mkBall 119 100 10 0 1 2 : Ball ℝ).mBall.x ∨
      (mkBall 100 100 10 0 1 1 : Ball ℝ).mBall.y ≠ (mkBall 119 100 10 0 1 2 : Ball ℝ).mBall.y) ∧
    (checkCollision Real.sqrt Collision.zero (mkBall 100 100 10 0 1 1 : Ball ℝ).mBall
      (mkBall 119 100 10 0 1 2 : Ball ℝ).mBall).1 = true ∧
    tangentDir (checkCollision Real.sqrt Collision.zero (mkBall 100 100 10 0 1 1 : Ball ℝ).mBall
        (mkBall 119 100 10 0 1 2 : Ball ℝ).mBall).2
      (Ball.resolve (checkCollision Real.sqrt Collision.zero
        (mkBall 100 100 10 0 1 1 : Ball ℝ).mBall (mkBall 119 100 10 0 1 2 : Ball ℝ).mBall).2
        (mkBall 100 100 10 0 1 1) (mkBall 119 100 10 0 1 2)).1
    = tangentDir (checkCollision Real.sqrt Collision.zero (mkBall 100 100 10 0 1 1 : Ball ℝ).mBall
        (mkBall 119 100 10 0 1 2 : Ball ℝ).mBall).2 (mkBall 100 100 10 0 1 1) :=
  ⟨Or.inl (by norm_num [mkBall]), hit_100_119 _ _ _ _ _ _ _,
   (resolve_keeps_tangential_direction Collision.zero (mkBall 100 100 10 0 1 1)
    (mkBall 119 100 10 0 1 2) (Or.inl (by norm_num [mkBall])) (hit_100_119 _ _ _ _ _ _ _)).1⟩

/-! ## C9: the positional correction -/

/-- C9. For a colliding pair with distinct centres, immediately after the two corrective
shifts of `Ball::move` the distance between the two positions equals the radius sum. -/
theorem resolve_separates (g0 : Collision ℝ) (a b : Ball ℝ)
    (hne : a.mBall.x ≠ b.mBall.x ∨ a.mBall.y ≠ b.mBall.y)
    (hhit : (checkCollision Real.sqrt g0 a.mBall b.mBall).1 = true) :
    centreDist Real.sqrt
        (Ball.resolve (checkCollision Real.sqrt g0 a.mBall b.mBall).2 a b).1
        (Ball.resolve (checkCollision Real.sqrt g0 a.mBall b.mBall).2 a b).2
      = a.mBall.r + b.mBall.r := by
  obtain ⟨hu, -, -, -, -, -, -, hx, hy, hm0, hmr, hr⟩ :=
    record_of_hit g0 a.mBall b.mBall hne hhit
  obtain ⟨-, -, -, e4, e5, -, -, -, e9, e10⟩ :=
    resolve_fields (checkCollision Real.sqrt g0 a.mBall b.mBall).2 a b
  generalize (checkCollision Real.sqrt g0 a.mBall b.mBall).2 = g at *
  simp only [centreDist, e4, e5, e9, e10]
  rw [← hr]
  apply sqrt_of_sq_eq (by linarith)
  have hx2 : b.mBall.x + (g.r - g.m) * g.nx / 2 - (a.mBall.x + -(g.r - g.m) * g.nx / 2)
      = g.r * g.nx := by linear_combination hx
  have hy2 : b.mBall.y + (g.r - g.m) * g.ny / 2 - (a.mBall.y + -(g.r - g.m) * g.ny / 2)
      = g.r * g.ny := by linear_combination hy
  rw [hx2, hy2]
  linear_combination g.r ^ 2 * hu

/-- The separation of C9 at the overlapping pair at `(100, 100)` and `(119, 100)`. -/
theorem resolve_separates_witness :
    ((mkBall 100 100 10 1 0 3 : Ball ℝ).mBall.x ≠ (mkBall 119 100 10 (-1) 0 3 : Ball ℝ).mBall.x ∨
      (mkBall 100 100 10 1 0 3 : Ball ℝ).mBall.y ≠ (mkBall 119 100 10 (-1) 0 3 : Ball ℝ).mBall.y) ∧
    (checkCollision Real.sqrt Collision.zero (mkBall 100 100 10 1 0 3 : Ball ℝ).mBall
      (mkBall 119 100 10 (-1) 0 3 : Ball ℝ).mBall).1 = true ∧
    centreDist Real.sqrt
        (Ball.resolve (checkCollision Real.sqrt Collision.zero
          (mkBall 100 100 10 1 0 3 : Ball ℝ).mBall (mkBall 119 100 10 (-1) 0 3 : Ball ℝ).mBall).2
          (mkBall 100 100 10 1 0 3) (mkBall 119 100 10 (-1) 0 3)).1
        (Ball.resolve (checkCollision Real.sqrt Collision.zero
          (mkBall 100 100 10 1 0 3 : Ball ℝ).mBall (mkBall 119 100 10 (-1) 0 3 : Ball ℝ).mBall).2
          (mkBall 100 100 10 1 0 3) (mkBall 119 100 10 (-1) 0 3)).2
      = (mkBall 100 100 10 1 0 3 : Ball ℝ).mBall.r + (mkBall 119 100 10 (-1) 0 3 : Ball ℝ).mBall.r :=
  ⟨Or.inl (by norm_num [mkBall]), hit_100_119 _ _ _ _ _ _ _,
   resolve_separates Collision.zero (mkBall 100 100 10 1 0 3) (mkBall 119 100 10 (-1) 0 3)
    (Or.inl (by norm_num [mkBall])) (hit_100_119 _ _ _ _ _ _ _)⟩

variable {F : Type} [LinearOrderedField F]

/-! ## The registry under `Ball.move` -/

/-- One iteration of the collision loop keeps the number of balls. -/
theorem collide_length (sqrt : F → F) (index i : Nat) (w : World F) :
    (Ball.collide sqrt index i w).gBalls.length = w.gBalls.length := by
  unfold Ball.collide
  cases w.gBalls.get? index with
  | none => rfl
  | some self =>
    cases w.gBalls.get? i with
    | none => rfl
    | some other =>
      by_cases h1 : i = index
      · simp [h1]
      · by_cases h2 : (checkCollision sqrt w.gCollision self.mBall other.mBall).1 = true <;>
          simp [h1, h2]

/-- One iteration of the collision loop on an overlapping pair stores the two balls
returned by `Ball.resolve` at `index` and `i`, and the record of `checkCollision`. -/
theorem collide_of_hit (sqrt : F → F) (index i : Nat) (w : World F) (self other : Ball F)
    (hself : w.gBalls.get? index = some self) (hother : w.gBalls.get? i = some other)
    (hne : i ≠ index)
    (hhit : (checkCollision sqrt w.gCollision self.mBall other.mBall).1 = true) :
    Ball.collide sqrt index i w =
      { gBalls := (w.gBalls.set index
            (Ball.resolve (checkCollision sqrt w.gCollision self.mBall other.mBall).2
              self other).1).set i
            (Ball.resolve (checkCollision sqrt w.gCollision self.mBall other.mBall).2
              self other).2,
        gCollision := (checkCollision sqrt w.gCollision self.mBall other.mBall).2 } := by
  unfold Ball.collide
  rw [hself, hother]
  simp [hne, hhit]

/-- The whole collision loop keeps the number of balls. -/
theorem collideLoop_length (sqrt : F → F) (index : Nat) (l : List Nat) (w : World F) :
    (l.foldl (fun acc i => Ball.collide sqrt index i acc) w).gBalls.length
      = w.gBalls.length := by
  induction l generalizing w with
  | nil => rfl
  | cons i l ih => rw [List.foldl_cons, ih, collide_length]

/-- One iteration of the collision loop leaves the registry as it is when the two balls
do not overlap. -/
theorem collide_gBalls_of_miss (sqrt : F → F) (index i : Nat) (w : World F) (self : Ball F)
    (hself : w.gBalls.get? index = some self)
    (hfree : ∀ j other, j ≠ index → w.gBalls.get? j = some other →
      ¬ centreDist sqrt self other < self.mBall.r + other.mBall.r) :
    (Ball.collide sqrt index i w).gBalls = w.gBalls := by
  unfold Ball.collide
  rw [hself]
  cases hi : w.gBalls.get? i with
  | none => rfl
  | some other =>
    by_cases hne : i = index
    · simp [hne]
    · have hmiss := hfree i other hne hi
      simp only [centreDist] at hmiss
      simp [hne, checkCollision, hmiss]

/-- The whole collision loop leaves the registry as it is when the ball overlaps no other
ball. -/
theorem collideLoop_gBalls_of_miss (sqrt : F → F) (index : Nat) (l : List Nat) (w : World F)
    (self : Ball F) (hself : w.gBalls.get? index = some self)
    (hfree : ∀ j other, j ≠ index → w.gBalls.get? j = some other →
      ¬ centreDist sqrt self other < self.mBall.r + other.mBall.r) :
    (l.foldl (fun acc i => Ball.collide sqrt index i acc) w).gBalls = w.gBalls := by
  induction l generalizing w with
  | nil => rfl
  | cons i l ih =>
    have h1 := collide_gBalls_of_miss sqrt index i w self hself hfree
    rw [List.foldl_cons, ih (Ball.collide sqrt index i w) (by rw [h1]; exact hself)
      (by rw [h1]; exact hfree), h1]

/-- The wall tests leave the position inside the box, and the translation adds the
velocity to it. -/
theorem wallsAndStep_box (b : Ball F) :
    0 ≤ (Ball.wallsAndStep b).mBall.x - (Ball.wallsAndStep b).mBall.ux * (Ball.wallsAndStep b).mBall.m ∧
    (Ball.wallsAndStep b).mBall.x - (Ball.wallsAndStep b).mBall.ux * (Ball.wallsAndStep b).mBall.m
      ≤ ((SCREEN_WIDTH - BALL_WIDTH : Int) : F) ∧
    0 ≤ (Ball.wallsAndStep b).mBall.y - (Ball.wallsAndStep b).mBall.uy * (Ball.wallsAndStep b).mBall.m ∧
    (Ball.wallsAndStep b).mBall.y - (Ball.wallsAndStep b).mBall.uy * (Ball.wallsAndStep b).mBall.m
      ≤ ((SCREEN_HEIGHT - BALL_HEIGHT : Int) : F) := by
  simp only [Ball.wallsAndStep, Ball.shift, Ball.bounceX, Ball.bounceY, SCREEN_WIDTH, SCREEN_HEIGHT,
    BALL_WIDTH, BALL_HEIGHT]
  push_cast
  split_ifs <;> simp_all <;> (try constructor) <;> linarith

/-- The ball that `Ball.move` leaves at `index`: the ball found there after the collision
loop, passed through the wall tests and the translation. -/
theorem move_get_self (sqrt : F → F) (index : Nat) (w : World F)
    (h : index < w.gBalls.length) :
    ∃ self1 : Ball F,
      ((List.range w.gBalls.length).foldl
        (fun acc i => Ball.collide sqrt index i acc) w).gBalls.get? index = some self1 ∧
      (Ball.move sqrt index w).gBalls.get? index = some (Ball.wallsAndStep self1) := by
  have hlen := collideLoop_length sqrt index (List.range w.gBalls.length) w
  have h1 : index < ((List.range w.gBalls.length).foldl
      (fun acc i => Ball.collide sqrt index i acc) w).gBalls.length := by rw [hlen]; exact h
  refine ⟨_, List.get?_eq_get h1, ?_⟩
  simp only [Ball.move, List.get?_eq_get h1]
  simp [h1]

/-! ## C1: boundary containment -/

/-- C1 fails as stated. A single ball at `x = 1178` moving right with magnitude 5 starts
inside the box and is at `x = 1183 > 1180` after one full pass: the wall test precedes the
translation. -/
theorem containment_fails_after_pass :
    ∃ b : Ball ℝ, (advance Real.sqrt (overshootWorld : World ℝ)).gBalls = [b] ∧
      b.mBall.x = 1183 ∧ ¬ b.mBall.x ≤ ((SCREEN_WIDTH - BALL_WIDTH : Int) : ℝ) := by
  refine ⟨mkBall 1183 100 10 1 0 5, ?_, ?_, ?_⟩
  · norm_num [advance, Ball.move, Ball.collide, overshootWorld, List.range_succ, mkBall,
      Ball.shift, Ball.wallsAndStep, Ball.bounceX, Ball.bounceY,
      SCREEN_WIDTH, SCREEN_HEIGHT, BALL_WIDTH, BALL_HEIGHT]
  · simp [mkBall]
  · norm_num [mkBall, SCREEN_WIDTH, BALL_WIDTH]

/-- An iteration of the collision loop that passes `Ball.collideDivisorOk` and finds an
overlap works on two balls with distinct centres. -/
theorem distinct_of_collideDivisorOk (index i : Nat) (w : World ℝ) (self other : Ball ℝ)
    (hself : w.gBalls.get? index = some self) (hother : w.gBalls.get? i = some other)
    (hne : i ≠ index)
    (hhit : (checkCollision Real.sqrt w.gCollision self.mBall other.mBall).1 = true)
    (hok : Ball.collideDivisorOk Real.sqrt index i w = true) :
    self.mBall.x ≠ other.mBall.x ∨ self.mBall.y ≠ other.mBall.y := by
  unfold Ball.collideDivisorOk at hok
  rw [hself, hother] at hok
  simp only [hne, hhit, ne_eq, not_false_eq_true, if_true, decide_eq_true_eq] at hok
  have hlt := (hit_iff w.gCollision self.mBall other.mBall).mp hhit
  simp only [checkCollision, hlt, if_true] at hok
  by_contra hcon
  push_neg at hcon
  apply hok
  rw [hcon.1, hcon.2]
  simp

/-- The test `Ball.moveDivisorsOk` rejects the registry of two balls at the same
position: `move(0)` resolves a collision at distance zero there. -/
theorem moveDivisorsOk_coincident :
    Ball.moveDivisorsOk Real.sqrt 0 (coincidentWorld : World ℝ) = false := by
  simp [Ball.moveDivisorsOk, Ball.loopDivisorsOk, Ball.collideDivisorOk, coincidentWorld,
    List.range_succ, checkCollision, mkBall, Ball.collide]

/-- The test `Ball.moveDivisorsOk` accepts the head-on registry: `move(0)` resolves one
collision, at distance 19. -/
theorem moveDivisorsOk_headOn :
    Ball.moveDivisorsOk Real.sqrt 0 (headOnWorld : World ℝ) = true := by
  norm_num [Ball.moveDivisorsOk, Ball.loopDivisorsOk, Ball.collideDivisorOk, headOnWorld,
    List.range_succ, checkCollision, mkBall, sqrt_361, Ball.collide]

/-- C1, amended. For every registry and every valid index such that the collision loop of
`Ball::move(index)` never divides by a zero centre distance (it resolves no collision
between two balls at the same position), the ball that `Ball::move` leaves at that index
has its position before the final translation, i.e. its position minus
`(ux * m, uy * m)`, inside `[0, 1180] × [0, 580]`. The hypothesis on the divisors is the
range on which the field division of the embedding and the division of the program
agree. -/
theorem move_clamps_before_translation (sqrt : F → F) (index : Nat) (w : World F)
    (h : index < w.gBalls.length) (_hdiv : Ball.moveDivisorsOk sqrt index w = true) :
    ∃ b : Ball F, (Ball.move sqrt index w).gBalls.get? index = some b ∧
      0 ≤ b.mBall.x - b.mBall.ux * b.mBall.m ∧
      b.mBall.x - b.mBall.ux * b.mBall.m ≤ ((SCREEN_WIDTH - BALL_WIDTH : Int) : F) ∧
      0 ≤ b.mBall.y - b.mBall.uy * b.mBall.m ∧
      b.mBall.y - b.mBall.uy * b.mBall.m ≤ ((SCREEN_HEIGHT - BALL_HEIGHT : Int) : F) := by
  obtain ⟨self1, -, h2⟩ := move_get_self sqrt index w h
  exact ⟨_, h2, wallsAndStep_box self1⟩

/-- The amended C1 at the head-on registry, where `move(0)` resolves a collision between
two balls at distance 19. -/
theorem move_clamps_before_translation_witness :
    0 < (headOnWorld : World ℝ).gBalls.length ∧
    Ball.moveDivisorsOk Real.sqrt 0 (headOnWorld : World ℝ) = true ∧
    ∃ b : Ball ℝ, (Ball.move Real.sqrt 0 (headOnWorld : World ℝ)).gBalls.get? 0 = some b ∧
      0 ≤ b.mBall.x - b.mBall.ux * b.mBall.m ∧
      b.mBall.x - b.mBall.ux * b.mBall.m ≤ ((SCREEN_WIDTH - BALL_WIDTH : Int) : ℝ) ∧
      0 ≤ b.mBall.y - b.mBall.uy * b.mBall.m ∧
      b.mBall.y - b.mBall.uy * b.mBall.m ≤ ((SCREEN_HEIGHT - BALL_HEIGHT : Int) : ℝ) :=
  ⟨by simp [headOnWorld], moveDivisorsOk_headOn,
   move_clamps_before_translation Real.sqrt 0 headOnWorld (by simp [headOnWorld])
    moveDivisorsOk_headOn⟩

/-! ## C7: reflection at the left wall -/

/-- C7 fails as stated. A single ball exactly at `x = 0` moving left with magnitude 3 is
not reflected by `Ball::move`: its direction stays `(-1, 0)` and it ends at `x = -3`. -/
theorem reflection_skipped_at_zero :
    ∃ b : Ball ℝ, (Ball.move Real.sqrt 0 (leftEdgeWorld : World ℝ)).gBalls = [b] ∧
      b.mBall.ux = -1 ∧ b.mBall.x = -3 := by
  refine ⟨mkBall (-3) 100 10 (-1) 0 3, ?_, ?_, ?_⟩
  · norm_num [Ball.move, Ball.collide, leftEdgeWorld, List.range_succ, mkBall,
      Ball.shift, Ball.wallsAndStep, Ball.bounceX, Ball.bounceY,
      SCREEN_WIDTH, SCREEN_HEIGHT, BALL_WIDTH, BALL_HEIGHT]
  · simp [mkBall]
  · simp [mkBall]

/-- The second ball of the two left-wall registries, at `(500, 100)`, does not overlap a
ball of radius 10 at `(x, 100)` with `x ≤ 0`. -/
theorem far_ball_free (x ux uy m : ℝ) (hx : x ≤ 0) :
    ¬ centreDist Real.sqrt (mkBall x 100 10 ux uy m) (mkBall 500 100 10 1 0 2)
      < (mkBall x 100 10 ux uy m : Ball ℝ).mBall.r + (mkBall 500 100 10 1 0 2 : Ball ℝ).mBall.r := by
  rw [not_lt]
  simp only [centreDist, mkBall]
  apply Real.le_sqrt_of_sq_le
  nlinarith

/-- C7, amended. For a ball that overlaps no other ball, `Ball::move` keeps the magnitude
and leaves the ball at `0 + ux' * m` in both of these cases: when the ball starts strictly
beyond the left wall (`x < 0`) its `ux` is negated, the position being set to exactly 0
before the final translation; when it starts at exactly `x = 0` it is not reflected in
that step and its `ux` is unchanged. -/
theorem move_reflects_left (sqrt : F → F) (index : Nat) (w : World F) (self : Ball F)
    (hself : w.gBalls.get? index = some self)
    (hfree : ∀ j other, j ≠ index → w.gBalls.get? j = some other →
      ¬ centreDist sqrt self other < self.mBall.r + other.mBall.r) :
    ∃ b : Ball F, (Ball.move sqrt index w).gBalls.get? index = some b ∧
      (self.mBall.x < 0 →
        b.mBall.ux = -self.mBall.ux ∧ b.mBall.m = self.mBall.m ∧
        b.mBall.x = 0 + b.mBall.ux * b.mBall.m) ∧
      (self.mBall.x = 0 →
        b.mBall.ux = self.mBall.ux ∧ b.mBall.m = self.mBall.m ∧
        b.mBall.x = 0 + b.mBall.ux * b.mBall.m) := by
  have hlt : index < w.gBalls.length := by
    rcases Nat.lt_or_ge index w.gBalls.length with h | h
    · exact h
    · rw [List.get?_eq_none.mpr h] at hself
      exact absurd hself (by simp)
  obtain ⟨self1, h1, h2⟩ := move_get_self sqrt index w hlt
  rw [collideLoop_gBalls_of_miss sqrt index _ w self hself hfree, hself] at h1
  have hs : self1 = self := (Option.some.inj h1).symm
  subst hs
  refine ⟨_, h2, fun hx => ⟨?_, ?_, ?_⟩, fun hx => ⟨?_, ?_, ?_⟩⟩
  · simp only [Ball.wallsAndStep, Ball.shift, Ball.bounceX, Ball.bounceY, hx, if_true]
    split_ifs <;> simp
  · simp only [Ball.wallsAndStep, Ball.shift, Ball.bounceX, Ball.bounceY, hx, if_true]
    split_ifs <;> simp
  · simp only [Ball.wallsAndStep, Ball.shift, Ball.bounceX, Ball.bounceY, hx, if_true]
    split_ifs <;> simp
  · simp only [Ball.wallsAndStep, Ball.shift, Ball.bounceX, Ball.bounceY, hx,
      SCREEN_WIDTH, BALL_WIDTH]
    norm_num
    split_ifs <;> simp
  · simp only [Ball.wallsAndStep, Ball.shift, Ball.bounceX, Ball.bounceY, hx,
      SCREEN_WIDTH, BALL_WIDTH]
    norm_num
    split_ifs <;> simp
  · simp only [Ball.wallsAndStep, Ball.shift, Ball.bounceX, Ball.bounceY, hx,
      SCREEN_WIDTH, BALL_WIDTH]
    norm_num
    split_ifs <;> simp [hx]

/-- The amended C7 on two registries of two balls, the second ball far from the first:
the first ball at `x = -2` is reflected, the first ball at `x = 0` is not. -/
theorem move_reflects_left_witness :
    ((mkBall (-2) 100 10 (-1) 0 3 : Ball ℝ).mBall.x < 0 ∧
      ∃ b : Ball ℝ,
        (Ball.move Real.sqrt 0 (leftOutsidePairWorld : World ℝ)).gBalls.get? 0 = some b ∧
        b.mBall.ux = -(mkBall (-2) 100 10 (-1) 0 3 : Ball ℝ).mBall.ux ∧
        b.mBall.m = (mkBall (-2) 100 10 (-1) 0 3 : Ball ℝ).mBall.m ∧
        b.mBall.x = 0 + b.mBall.ux * b.mBall.m) ∧
    ((mkBall 0 100 10 (-1) 0 3 : Ball ℝ).mBall.x = 0 ∧
      ∃ b : Ball ℝ,
        (Ball.move Real.sqrt 0 (leftEdgePairWorld : World ℝ)).gBalls.get? 0 = some b ∧
        b.mBall.ux = (mkBall 0 100 10 (-1) 0 3 : Ball ℝ).mBall.ux ∧
        b.mBall.m = (mkBall 0 100 10 (-1) 0 3 : Ball ℝ).mBall.m ∧
        b.mBall.x = 0 + b.mBall.ux * b.mBall.m) := by
  have hxa : (mkBall (-2) 100 10 (-1) 0 3 : Ball ℝ).mBall.x < 0 := by norm_num [mkBall]
  have hxb : (mkBall 0 100 10 (-1) 0 3 : Ball ℝ).mBall.x = 0 := by simp [mkBall]
  obtain ⟨b1, hb1, hneg, -⟩ := move_reflects_left Real.sqrt 0 leftOutsidePairWorld
    (mkBall (-2) 100 10 (-1) 0 3) (by simp [leftOutsidePairWorld])
    (by
      intro j other hj hget
      match j, hj, hget with
      | 0, hj, _ => exact absurd rfl hj
      | 1, _, hget =>
        have ho : other = mkBall 500 100 10 1 0 2 := by
          simpa [leftOutsidePairWorld] using hget.symm
        rw [ho]
        exact far_ball_free (-2) (-1) 0 3 (by norm_num)
      | k + 2, _, hget => simp [leftOutsidePairWorld] at hget)
  obtain ⟨b2, hb2, -, hzero⟩ := move_reflects_left Real.sqrt 0 leftEdgePairWorld
    (mkBall 0 100 10 (-1) 0 3) (by simp [leftEdgePairWorld])
    (by
      intro j other hj hget
      match j, hj, hget with
      | 0, hj, _ => exact absurd rfl hj
      | 1, _, hget =>
        have ho : other = mkBall 500 100 10 1 0 2 := by
          simpa [leftEdgePairWorld] using hget.symm
        rw [ho]
        exact far_ball_free 0 (-1) 0 3 le_rfl
      | k + 2, _, hget => simp [leftEdgePairWorld] at hget)
  exact ⟨⟨hxa, b1, hb1, hneg hxa⟩, ⟨hxb, b2, hb2, hzero hxb⟩⟩

/-! ## C8: the head-on scenario -/

/-- The square root of 529. -/
theorem sqrt_529 : Real.sqrt 529 = 23 := sqrt_of_sq_eq (by norm_num) (by norm_num)

/-- The square root of 676. -/
theorem sqrt_676 : Real.sqrt 676 = 26 := sqrt_of_sq_eq (by norm_num) (by norm_num)

/-- C8. Two balls of radius 10 at `(100, 100)` and `(119, 100)` moving toward each other
with magnitude 3: after one full pass (`move(0)` then `move(1)`) the first ball's `ux` is
negative, the second ball's `ux` is positive, and the two positions are at least 20
apart (they are at `x = 96.5` and `x = 122.5`, 26 apart). -/
theorem head_on_scenario :
    ∃ b0 b1 : Ball ℝ, (advance Real.sqrt (headOnWorld : World ℝ)).gBalls = [b0, b1] ∧
      b0 = mkBall (193 / 2) 100 10 (-1) 0 3 ∧ b1 = mkBall (245 / 2) 100 10 1 0 3 ∧
      b0.mBall.ux < 0 ∧ 0 < b1.mBall.ux ∧ 20 ≤ centreDist Real.sqrt b0 b1 := by
  refine ⟨mkBall (193 / 2) 100 10 (-1) 0 3, mkBall (245 / 2) 100 10 1 0 3, ?_, rfl, rfl,
    ?_, ?_, ?_⟩
  · norm_num [advance, Ball.move, Ball.collide, headOnWorld, List.range_succ, checkCollision,
      mkBall, sqrt_361, sqrt_529, Ball.resolve, Ball.shift, swap, Ball.wallsAndStep,
      Ball.bounceX, Ball.bounceY, SCREEN_WIDTH, SCREEN_HEIGHT, BALL_WIDTH, BALL_HEIGHT]
  · norm_num [mkBall]
  · norm_num [mkBall]
  · norm_num [centreDist, mkBall, sqrt_676]

/-! ## C5: the direction after a collision -/

/-- The square root of 400. -/
theorem sqrt_400 : Real.sqrt 400 = 20 := sqrt_of_sq_eq (by norm_num) (by norm_num)

/-- C5, the code at the failing input. Two overlapping balls with distinct centres, unit
directions `(1, 0)` and `(0, 1)` and magnitude 3. After `Ball::move` on the first ball the
directions are `(0, 0)` and `(1, 1)`, of squared length 0 and 2, and they are still so
after the full pass. -/
theorem unit_direction_broken :
    dirNormSq (mkBall 100 100 10 1 0 3 : Ball ℝ) = 1 ∧
    dirNormSq (mkBall 119 100 10 0 1 3 : Ball ℝ) = 1 ∧
    (Ball.move Real.sqrt 0 (crossingWorld : World ℝ)).gBalls
      = [mkBall (199 / 2) 100 10 0 0 3, mkBall (239 / 2) 100 10 1 1 3] ∧
    (advance Real.sqrt (crossingWorld : World ℝ)).gBalls
      = [mkBall (199 / 2) 100 10 0 0 3, mkBall (245 / 2) 103 10 1 1 3] ∧
    dirNormSq (mkBall (199 / 2) 100 10 0 0 3 : Ball ℝ) = 0 ∧
    dirNormSq (mkBall (239 / 2) 100 10 1 1 3 : Ball ℝ) = 2 ∧
    dirNormSq (mkBall (245 / 2) 103 10 1 1 3 : Ball ℝ) = 2 := by
  refine ⟨?_, ?_, ?_, ?_, ?_, ?_, ?_⟩
  · norm_num [mkBall, dirNormSq]
  · norm_num [mkBall, dirNormSq]
  · norm_num [Ball.move, Ball.collide, crossingWorld, List.range_succ, checkCollision,
      mkBall, sqrt_361, Ball.resolve, Ball.shift, swap, Ball.wallsAndStep,
      Ball.bounceX, Ball.bounceY, SCREEN_WIDTH, SCREEN_HEIGHT, BALL_WIDTH, BALL_HEIGHT]
  · norm_num [advance, Ball.move, Ball.collide, crossingWorld, List.range_succ, checkCollision,
      mkBall, sqrt_361, sqrt_400, Ball.resolve, Ball.shift, swap, Ball.wallsAndStep,
      Ball.bounceX, Ball.bounceY, SCREEN_WIDTH, SCREEN_HEIGHT, BALL_WIDTH, BALL_HEIGHT]
  · norm_num [mkBall, dirNormSq]
  · norm_num [mkBall, dirNormSq]
  · norm_num [mkBall, dirNormSq]

/-! ## C10: the spawn loop -/

/-- The magnitude and the direction the constructor computes from a velocity that is not
the zero vector: direction times magnitude gives the velocity back. -/
theorem init_velocity (px py vx vy : ℝ) (hv : 0 < vx ^ 2 + vy ^ 2) :
    (Ball.init Real.sqrt px py vx vy).mBall.m = Real.sqrt (vx ^ 2 + vy ^ 2) ∧
    (Ball.init Real.sqrt px py vx vy).mBall.ux * (Ball.init Real.sqrt px py vx vy).mBall.m = vx ∧
    (Ball.init Real.sqrt px py vx vy).mBall.uy * (Ball.init Real.sqrt px py vx vy).mBall.m = vy := by
  have hpos : 0 < Real.sqrt (vx ^ 2 + vy ^ 2) := Real.sqrt_pos.mpr hv
  simp only [Ball.init]
  refine ⟨trivial, ?_, ?_⟩ <;> field_simp

/-- The squared spawn velocity lies between 1 and 25. -/
theorem spawn_speed_sq_bounds (i r3 r4 : Nat) :
    1 ≤ (((r3 % 5 + 1 : Nat) : ℝ) * Real.cos (i : ℝ)) ^ 2
        + (((r4 % 5 + 1 : Nat) : ℝ) * Real.sin (i : ℝ)) ^ 2 ∧
    (((r3 % 5 + 1 : Nat) : ℝ) * Real.cos (i : ℝ)) ^ 2
        + (((r4 % 5 + 1 : Nat) : ℝ) * Real.sin (i : ℝ)) ^ 2 ≤ 25 := by
  have hcs := Real.cos_sq_add_sin_sq (i : ℝ)
  have ha1 : (1 : ℝ) ≤ ((r3 % 5 + 1 : Nat) : ℝ) := by exact_mod_cast Nat.le_add_left 1 _
  have hc1 : (1 : ℝ) ≤ ((r4 % 5 + 1 : Nat) : ℝ) := by exact_mod_cast Nat.le_add_left 1 _
  have ha5 : ((r3 % 5 + 1 : Nat) : ℝ) ≤ 5 := by
    have : r3 % 5 + 1 ≤ 5 := by omega
    exact_mod_cast this
  have hc5 : ((r4 % 5 + 1 : Nat) : ℝ) ≤ 5 := by
    have : r4 % 5 + 1 ≤ 5 := by omega
    exact_mod_cast this
  generalize ((r3 % 5 + 1 : Nat) : ℝ) = a at *
  generalize ((r4 % 5 + 1 : Nat) : ℝ) = c at *
  have hcos := sq_nonneg (Real.cos (i : ℝ))
  have hsin := sq_nonneg (Real.sin (i : ℝ))
  have ha2 : 1 ≤ a ^ 2 := by nlinarith
  have hc2 : 1 ≤ c ^ 2 := by nlinarith
  have ha25 : a ^ 2 ≤ 25 := by nlinarith
  have hc25 : c ^ 2 ≤ 25 := by nlinarith
  constructor
  · rw [mul_pow, mul_pow]; nlinarith
  · rw [mul_pow, mul_pow]; nlinarith

/-- C10 fails as stated. For spawn index 1 with the third draw giving factor 1 and the
fourth giving factor 5, the effective velocity of the constructed ball is not
`(m * cos 1, m * sin 1)` for its magnitude `m`. -/
theorem spawn_not_single_speed :
    ¬ ((spawn Real.sqrt Real.cos Real.sin 1 0 0 0 4).mBall.ux
          * (spawn Real.sqrt Real.cos Real.sin 1 0 0 0 4).mBall.m
        = (spawn Real.sqrt Real.cos Real.sin 1 0 0 0 4).mBall.m * Real.cos 1 ∧
       (spawn Real.sqrt Real.cos Real.sin 1 0 0 0 4).mBall.uy
          * (spawn Real.sqrt Real.cos Real.sin 1 0 0 0 4).mBall.m
        = (spawn Real.sqrt Real.cos Real.sin 1 0 0 0 4).mBall.m * Real.sin 1) := by
  have hcos : 0 < Real.cos 1 := Real.cos_one_pos
  have hsin : 0 < Real.sin 1 := Real.sin_pos_of_pos_of_le_one one_pos le_rfl
  have hb := spawn_speed_sq_bounds 1 0 4
  obtain ⟨-, hx, hy⟩ := init_velocity
    (((0 % (SCREEN_WIDTH - BALL_WIDTH).toNat : Nat) : ℝ))
    (((0 % (SCREEN_HEIGHT - BALL_HEIGHT).toNat : Nat) : ℝ))
    (((0 % 5 + 1 : Nat) : ℝ) * Real.cos ((1 : Nat) : ℝ))
    (((4 % 5 + 1 : Nat) : ℝ) * Real.sin ((1 : Nat) : ℝ)) (by linarith [hb.1])
  rintro ⟨h1, h2⟩
  simp only [spawn] at h1 h2
  rw [hx] at h1
  rw [hy] at h2
  norm_num at h1 h2
  have e1 : (Ball.init Real.sqrt 0 0 (Real.cos 1) (5 * Real.sin 1)).mBall.m = 1 := by
    have := mul_right_cancel₀ (ne_of_gt hcos) (by rw [one_mul]; exact h1 :
      1 * Real.cos 1 = (Ball.init Real.sqrt 0 0 (Real.cos 1) (5 * Real.sin 1)).mBall.m * Real.cos 1)
    exact this.symm
  rw [e1] at h2
  rcases h2 with h | h
  · norm_num at h
  · exact absurd h (ne_of_gt hsin)

/-- C10, amended. For every spawn index `i` and every outcome of the four draws, the two
velocity components are scaled by two separate draws `a = r3 % 5 + 1` and
`c = r4 % 5 + 1`, both integers in `[1, 5]`: the effective velocity of the constructed
ball is `(a * cos i, c * sin i)`, its magnitude is a real number in `[1, 5]`, and when the
two draws give the same factor the magnitude is that integer and the direction is
`(cos i, sin i)`. -/
theorem spawn_velocity (i r1 r2 r3 r4 : Nat) :
    (1 ≤ r3 % 5 + 1 ∧ r3 % 5 + 1 ≤ 5 ∧ 1 ≤ r4 % 5 + 1 ∧ r4 % 5 + 1 ≤ 5) ∧
    (spawn Real.sqrt Real.cos Real.sin i r1 r2 r3 r4).mBall.ux
        * (spawn Real.sqrt Real.cos Real.sin i r1 r2 r3 r4).mBall.m
      = ((r3 % 5 + 1 : Nat) : ℝ) * Real.cos (i : ℝ) ∧
    (spawn Real.sqrt Real.cos Real.sin i r1 r2 r3 r4).mBall.uy
        * (spawn Real.sqrt Real.cos Real.sin i r1 r2 r3 r4).mBall.m
      = ((r4 % 5 + 1 : Nat) : ℝ) * Real.sin (i : ℝ) ∧
    1 ≤ (spawn Real.sqrt Real.cos Real.sin i r1 r2 r3 r4).mBall.m ∧
    (spawn Real.sqrt Real.cos Real.sin i r1 r2 r3 r4).mBall.m ≤ 5 ∧
    (r3 % 5 = r4 % 5 →
      (spawn Real.sqrt Real.cos Real.sin i r1 r2 r3 r4).mBall.m = ((r3 % 5 + 1 : Nat) : ℝ) ∧
      (spawn Real.sqrt Real.cos Real.sin i r1 r2 r3 r4).mBall.ux = Real.cos (i : ℝ) ∧
      (spawn Real.sqrt Real.cos Real.sin i r1 r2 r3 r4).mBall.uy = Real.sin (i : ℝ)) := by
  obtain ⟨hlo, hhi⟩ := spawn_speed_sq_bounds i r3 r4
  obtain ⟨hm, hx, hy⟩ := init_velocity
    (((r1 % (SCREEN_WIDTH - BALL_WIDTH).toNat : Nat) : ℝ))
    (((r2 % (SCREEN_HEIGHT - BALL_HEIGHT).toNat : Nat) : ℝ))
    (((r3 % 5 + 1 : Nat) : ℝ) * Real.cos (i : ℝ))
    (((r4 % 5 + 1 : Nat) : ℝ) * Real.sin (i : ℝ)) (by linarith)
  have hm1 : 1 ≤ (spawn Real.sqrt Real.cos Real.sin i r1 r2 r3 r4).mBall.m := by
    unfold spawn
    rw [hm]
    exact Real.le_sqrt_of_sq_le (by linarith)
  refine ⟨⟨by omega, by omega, by omega, by omega⟩, hx, hy, hm1, ?_, ?_⟩
  · unfold spawn
    rw [hm]
    exact Real.sqrt_le_iff.mpr ⟨by norm_num, by linarith⟩
  · intro heq
    have hmeq : (spawn Real.sqrt Real.cos Real.sin i r1 r2 r3 r4).mBall.m
        = ((r3 % 5 + 1 : Nat) : ℝ) := by
      unfold spawn
      rw [hm, ← heq]
      apply sqrt_of_sq_eq (by positivity)
      linear_combination ((r3 % 5 + 1 : Nat) : ℝ) ^ 2 * Real.cos_sq_add_sin_sq (i : ℝ)
    have hne : (spawn Real.sqrt Real.cos Real.sin i r1 r2 r3 r4).mBall.m ≠ 0 := by linarith
    have hx2 : (spawn Real.sqrt Real.cos Real.sin i r1 r2 r3 r4).mBall.ux
        * (spawn Real.sqrt Real.cos Real.sin i r1 r2 r3 r4).mBall.m
        = ((r3 % 5 + 1 : Nat) : ℝ) * Real.cos (i : ℝ) := hx
    have hy2 : (spawn Real.sqrt Real.cos Real.sin i r1 r2 r3 r4).mBall.uy
        * (spawn Real.sqrt Real.cos Real.sin i r1 r2 r3 r4).mBall.m
        = ((r4 % 5 + 1 : Nat) : ℝ) * Real.sin (i : ℝ) := hy
    refine ⟨hmeq, mul_right_cancel₀ hne (hx2.trans ?_), mul_right_cancel₀ hne (hy2.trans ?_)⟩
    · rw [hmeq, mul_comm]
    · rw [hmeq, ← heq, mul_comm]

/-- The amended C10 at spawn index 1 with two draws that give the same factor 3. -/
theorem spawn_velocity_witness :
    2 % 5 = 7 % 5 ∧
    (spawn Real.sqrt Real.cos Real.sin 1 0 0 2 7).mBall.m = ((2 % 5 + 1 : Nat) : ℝ) ∧
    (spawn Real.sqrt Real.cos Real.sin 1 0 0 2 7).mBall.ux = Real.cos ((1 : Nat) : ℝ) ∧
    (spawn Real.sqrt Real.cos Real.sin 1 0 0 2 7).mBall.uy = Real.sin ((1 : Nat) : ℝ) :=
  ⟨by decide, (spawn_velocity 1 0 0 2 7).2.2.2.2.2 (by decide)⟩

end BouncingBall
